import Mathlib

/-!
Formal model of the speech-to-text (STT) component and the Lovelace dashboard
configuration of the home-assistant repository excerpt, with theorems checking
the natural-language specification against the code.

The STT component (homeassistant/components/stt/init) provides:
  a SpeechMetadata value object, a Provider capability descriptor with a
  check_metadata validator, and an HTTP view with a POST handler (parse the
  X-Speech-Content header, validate against the provider capabilities,
  dispatch the audio stream) and a GET handler (capability introspection).

The Lovelace component (homeassistant/components/lovelace) provides a
configuration schema and dashboard/panel registration with duplicate-url
handling.

Python-level string primitives (split, partition, strip, int conversion,
dict insertion) are embedded as executable functions on lists of characters.
-/

/-! ## Python string primitives -/

/-- Python str.split with a one-character separator: splits at every
occurrence, keeping empty pieces, and returns one piece for the empty
string. -/
def pySplit (sep : Char) : List Char → List (List Char)
  | [] => [[]]
  | c :: cs =>
    match pySplit sep cs with
    | [] => [[c]]
    | g :: gs => if c = sep then [] :: g :: gs else (c :: g) :: gs

/-- Python str.partition with a one-character separator: the text before the
first occurrence, the separator itself, and the text after it; when the
separator does not occur, the whole string and two empty parts. -/
def pyPartition (sep : Char) : List Char → List Char × List Char × List Char
  | [] => ([], [], [])
  | c :: cs =>
    if c = sep then ([], [sep], cs)
    else
      let r := pyPartition sep cs
      if r.2.1 = [] then (c :: cs, [], []) else (c :: r.1, r.2.1, r.2.2)

/-- Whitespace characters stripped by Python int() around a numeral. -/
def isPySpace (c : Char) : Bool := c = ' ' || c = '\t' || c = '\n' || c = '\r'

/-- Python int(str): strip surrounding whitespace, allow one optional sign,
then require a nonempty run of decimal digits; anything else raises
ValueError, modelled as none. -/
def pyInt (s : List Char) : Option Int :=
  let t := ((s.dropWhile isPySpace).reverse.dropWhile isPySpace).reverse
  let neg := t.head? = some '-'
  let core := if neg ∨ t.head? = some '+' then t.drop 1 else t
  if core.isEmpty || !core.all Char.isDigit then none
  else
    let n : Nat := core.foldl (fun acc c => acc * 10 + (c.toNat - 48)) 0
    some (if neg then -(n : Int) else (n : Int))

/-- Python dict insertion d[k] = v on an association list: overwrite the
value in place when the key is present, append otherwise. -/
def dinsert (k v : String) : List (String × String) → List (String × String)
  | [] => [(k, v)]
  | (k0, v0) :: rest => if k0 = k then (k, v) :: rest else (k0, v0) :: dinsert k v rest

/-- Python dict lookup on an association list built by dinsert (keys are
unique, so the first match is the entry). -/
def dlookup (k : String) (d : List (String × String)) : Option String :=
  (d.find? (fun p => p.1 == k)).map (fun p => p.2)

/-! ## STT data model (homeassistant/components/stt) -/

/-- SpeechMetadata: the five negotiated audio-stream parameters. The first
field keeps the source's spelling lanugage; bitrate and samplerate carry the
attrs int converter, so they are integers once construction succeeds. -/
structure SpeechMetadata where
  lanugage : String
  format : String
  codec : String
  bitrate : Int
  samplerate : Int
deriving DecidableEq, Repr

/-- Provider: the five capability lists declared at registration, plus the
audio-stream processing operation async_process_audio_stream, modelled as a
function from the metadata and the raw byte stream to an optional text. -/
structure Provider where
  supported_languages : List String
  supported_formats : List String
  supported_codecs : List String
  supported_bitrates : List Int
  supported_samplerates : List Int
  process : SpeechMetadata → List Nat → Option String

/-- Provider.check_metadata: the source asserts membership of each of the
five metadata fields in the corresponding capability list inside a
try/except that turns an assertion failure into False. -/
def Provider.check_metadata (p : Provider) (m : SpeechMetadata) : Bool :=
  p.supported_languages.contains m.lanugage &&
  p.supported_formats.contains m.format &&
  p.supported_codecs.contains m.codec &&
  p.supported_bitrates.contains m.bitrate &&
  p.supported_samplerates.contains m.samplerate

/-! ## Header parsing (SpeechToTextView._metadat_from_header)

The source splits the header on semicolons, calls map(str.strip, data)
without consuming the lazy iterator (so no stripping happens), then for each
segment stores args[segment.partition with sep = into part 0] := segment
partitioned on the slash, part 2, and finally calls SpeechMetadata(**args),
which raises TypeError unless the keys are exactly the five field names and
raises ValueError unless bitrate and samplerate convert with int(). -/

/-- The attrs field names of SpeechMetadata, the only keyword arguments its
constructor accepts. -/
def sttFieldNames : List String := ["lanugage", "format", "codec", "bitrate", "samplerate"]

/-- The argument dict built by the loop of the source: for each semicolon
segment, key = text before the first equals sign, value = text after the
first slash (empty when the segment has no slash). The source's
map(str.strip, data) is a discarded lazy iterator, so segments keep their
leading spaces. -/
def headerArgs (h : String) : List (String × String) :=
  (pySplit ';' h.data).foldl
    (fun args seg =>
      dinsert (String.mk (pyPartition '=' seg).1) (String.mk (pyPartition '/' seg).2.2) args)
    []

/-- SpeechMetadata(**args): succeeds only when the keys are exactly the five
field names (every key a field name and every field present) and the bitrate
and samplerate values convert with Python int(); none models the TypeError
or ValueError raised otherwise. -/
def speechMetadataOfArgs (args : List (String × String)) : Option SpeechMetadata :=
  if args.all (fun p => sttFieldNames.contains p.1) then
    match dlookup "lanugage" args, dlookup "format" args, dlookup "codec" args,
        (dlookup "bitrate" args).bind (fun v => pyInt v.data),
        (dlookup "samplerate" args).bind (fun v => pyInt v.data) with
    | some lan, some fm, some co, some br, some sr =>
        some { lanugage := lan, format := fm, codec := co, bitrate := br, samplerate := sr }
    | _, _, _, _, _ => none
  else none

/-- SpeechToTextView._metadat_from_header on the header value: build the
argument dict and construct the SpeechMetadata; none models an exception
escaping the handler. -/
def metadat_from_header (h : String) : Option SpeechMetadata :=
  speechMetadataOfArgs (headerArgs h)

/-! ## The HTTP view (SpeechToTextView) -/

/-- The outcome of a request as the client sees it: the two raised aiohttp
exceptions (HTTPNotFound, HTTPNotImplemented), an exception escaping the
handler unhandled (KeyError on a missing header, TypeError or ValueError
from metadata construction), or an explicit web.Response with a status and
an optional text body. -/
inductive HttpResult where
  | notFound
  | notImplemented
  | unhandledError
  | response (status : Nat) (body : Option String)
deriving DecidableEq, Repr

/-- The HTTP status the client receives for each outcome: HTTPNotFound is
404, HTTPNotImplemented is 501, an unhandled exception becomes the server's
internal error 500, and an explicit response carries its own status. -/
def HttpResult.statusOf : HttpResult → Nat
  | .notFound => 404
  | .notImplemented => 501
  | .unhandledError => 500
  | .response s _ => s

/-- What one handler run did, beside its outcome: whether
_metadat_from_header was entered and whether the provider's
async_process_audio_stream was invoked. -/
structure PostTrace where
  result : HttpResult
  headerParsed : Bool
  processInvoked : Bool
deriving DecidableEq, Repr

/-- An inbound POST request: the optional X-Speech-Content header and the
raw audio byte stream of the body. -/
structure SttRequest where
  speechContentHeader : Option String
  content : List Nat

/-- SpeechToTextView.post: look the provider up (404 when absent), parse the
header (request.headers raises KeyError when it is missing, and metadata
construction can raise), validate with check_metadata (501 on failure), then
dispatch the stream to the provider: a None result yields status 400, a text
yields status 200 with that text as body. The providers mapping is threaded
through and returned so that mutation claims can be stated. -/
def SpeechToTextView.post (providers : List (String × Provider)) (name : String)
    (request : SttRequest) : List (String × Provider) × PostTrace :=
  match List.lookup name providers with
  | none => (providers, ⟨.notFound, false, false⟩)
  | some stt_provider =>
    match request.speechContentHeader with
    | none => (providers, ⟨.unhandledError, true, false⟩)
    | some h =>
      match metadat_from_header h with
      | none => (providers, ⟨.unhandledError, true, false⟩)
      | some metadata =>
        if stt_provider.check_metadata metadata then
          match stt_provider.process metadata request.content with
          | none => (providers, ⟨.response 400 none, true, true⟩)
          | some text => (providers, ⟨.response 200 (some text), true, true⟩)
        else (providers, ⟨.notImplemented, true, false⟩)

/-- A capability list as it appears in the GET handler's JSON object: either
a list of strings or a list of integers. -/
inductive CapJson where
  | strs (l : List String)
  | ints (l : List Int)
deriving DecidableEq, Repr

/-- The outcome of a GET request: HTTPNotFound, or a JSON message response
carrying an object of named capability lists. -/
inductive GetResult where
  | notFound
  | jsonMessage (body : List (String × CapJson))
deriving DecidableEq, Repr

/-- Modelled from the spec: HomeAssistantView.json_message lives in
homeassistant/components/http, which is not part of this excerpt; per the
spec's capability-introspection sentence it returns a successful JSON
response carrying the given object verbatim. -/
def json_message (body : List (String × CapJson)) : GetResult :=
  .jsonMessage body

/-- SpeechToTextView.get: look the provider up (404 when absent) and return
the JSON object with the provider's five capability lists under the keys the
source uses (note the singular samplerate and bitrate keys). The providers
mapping is threaded through as in post. -/
def SpeechToTextView.get (providers : List (String × Provider)) (name : String) :
    List (String × Provider) × GetResult :=
  match List.lookup name providers with
  | none => (providers, .notFound)
  | some stt_provider =>
    (providers, json_message
      [("languages", .strs stt_provider.supported_languages),
       ("formats", .strs stt_provider.supported_formats),
       ("codecs", .strs stt_provider.supported_codecs),
       ("samplerate", .ints stt_provider.supported_samplerates),
       ("bitrate", .ints stt_provider.supported_bitrates)])

/-! ## Claims C1 and C2 -/

/-- C1: for every provider P and every SpeechMetadata value M,
P.check_metadata M returns true if and only if each of M's five fields
(language, format, codec, bitrate, samplerate) is a member of P's
corresponding capability list. -/
theorem check_metadata_iff_all_fields_supported (p : Provider) (m : SpeechMetadata) :
    p.check_metadata m = true ↔
      (m.lanugage ∈ p.supported_languages ∧ m.format ∈ p.supported_formats ∧
       m.codec ∈ p.supported_codecs ∧ m.bitrate ∈ p.supported_bitrates ∧
       m.samplerate ∈ p.supported_samplerates) := by
  simp [Provider.check_metadata, List.contains, and_assoc]

/-- C2: the claim says the documented header value parses to format wav,
codec pcm, samplerate 16000, bitrate 16, language de_de. On the code the
parse raises instead (modelled as none): the discarded map(str.strip, data)
leaves segments with leading spaces, the header keys codecs and language do
not match the attrs field names codec and lanugage, and the samplerate,
bitrate and language segments contain no slash, so partition yields empty
values; SpeechMetadata(**args) therefore raises TypeError. The function's
own docstring documents exactly this header, so the code contradicts its
documentation: a code bug. -/
theorem metadat_from_header_doc_example_fails :
    metadat_from_header
        "format=audio/wav; codecs=audio/pcm; samplerate=16000; bitrate=16; language=de_de"
      = none ∧
    headerArgs
        "format=audio/wav; codecs=audio/pcm; samplerate=16000; bitrate=16; language=de_de"
      = [("format", "wav"), (" codecs", "pcm"), (" samplerate", ""), (" bitrate", ""),
         (" language", "")] := by
  constructor
  · rfl
  · rfl

/-! ## Concrete providers and requests for instantiations -/

/-- A provider whose capability lists are all empty and whose processing
operation always returns None. -/
def emptyProvider : Provider :=
  { supported_languages := [], supported_formats := [], supported_codecs := [],
    supported_bitrates := [], supported_samplerates := [],
    process := fun _ _ => none }

/-- A provider supporting language de, format wav, codec pcm, bitrate 16 and
samplerate 16000, answering every stream with the text hello. -/
def demoProvider : Provider :=
  { supported_languages := ["de"], supported_formats := ["wav"], supported_codecs := ["pcm"],
    supported_bitrates := [16], supported_samplerates := [16000],
    process := fun _ _ => some "hello" }

/-- A header value that the source's parser accepts: its keys are exactly
the five attrs field names, lanugage spelling included, and every segment
carries a slash so the values are nonempty. -/
def demoHeader : String := "lanugage=x/de;format=x/wav;codec=x/pcm;bitrate=x/16;samplerate=x/16000"

/-- The metadata the source's parser extracts from demoHeader. -/
def demoMetadata : SpeechMetadata :=
  { lanugage := "de", format := "wav", codec := "pcm", bitrate := 16, samplerate := 16000 }

/-! ## Claims C3, C4, C5 (POST dispatch) -/

/-- C3: a POST addressed to a registered provider whose parsed metadata
fails check_metadata is answered with HTTPNotImplemented (status 501) and
the provider's async_process_audio_stream is never invoked. -/
theorem post_unsupported_metadata_not_implemented
    (providers : List (String × Provider)) (name : String) (p : Provider)
    (hv : String) (m : SpeechMetadata) (stream : List Nat)
    (hlook : List.lookup name providers = some p)
    (hparse : metadat_from_header hv = some m)
    (hcheck : p.check_metadata m = false) :
    (SpeechToTextView.post providers name ⟨some hv, stream⟩).2 =
        ⟨.notImplemented, true, false⟩ ∧
    ((SpeechToTextView.post providers name ⟨some hv, stream⟩).2.result).statusOf = 501 := by
  have : (SpeechToTextView.post providers name ⟨some hv, stream⟩).2 =
      ⟨.notImplemented, true, false⟩ := by
    simp [SpeechToTextView.post, hlook, hparse, hcheck]
  exact ⟨this, by rw [this]; rfl⟩

/-- C3 witness: the empty provider rejects the demo metadata, so the demo
request is answered 501 without dispatch. -/
theorem post_unsupported_metadata_not_implemented_witness :
    (SpeechToTextView.post [("demo", emptyProvider)] "demo" ⟨some demoHeader, []⟩).2 =
        ⟨.notImplemented, true, false⟩ ∧
    ((SpeechToTextView.post [("demo", emptyProvider)] "demo"
        ⟨some demoHeader, []⟩).2.result).statusOf = 501 :=
  post_unsupported_metadata_not_implemented [("demo", emptyProvider)] "demo" emptyProvider
    demoHeader demoMetadata [] rfl rfl rfl

/-- C4: a POST addressed to a registered provider whose parsed metadata
passes check_metadata dispatches the stream to the provider: a None result
yields status 400, and a text result yields status 200 with that text as
body. -/
theorem post_accepted_metadata_dispatch
    (providers : List (String × Provider)) (name : String) (p : Provider)
    (hv : String) (m : SpeechMetadata) (stream : List Nat)
    (hlook : List.lookup name providers = some p)
    (hparse : metadat_from_header hv = some m)
    (hcheck : p.check_metadata m = true) :
    (p.process m stream = none →
      (SpeechToTextView.post providers name ⟨some hv, stream⟩).2 =
        ⟨.response 400 none, true, true⟩) ∧
    (∀ text, p.process m stream = some text →
      (SpeechToTextView.post providers name ⟨some hv, stream⟩).2 =
        ⟨.response 200 (some text), true, true⟩) := by
  constructor
  · intro hproc
    simp [SpeechToTextView.post, hlook, hparse, hcheck, hproc]
  · intro text hproc
    simp [SpeechToTextView.post, hlook, hparse, hcheck, hproc]

/-- C4 witness: the demo provider accepts the demo metadata and answers
hello, so the demo request is answered 200 with body hello. -/
theorem post_accepted_metadata_dispatch_witness :
    (SpeechToTextView.post [("demo", demoProvider)] "demo" ⟨some demoHeader, []⟩).2 =
      ⟨.response 200 (some "hello"), true, true⟩ :=
  (post_accepted_metadata_dispatch [("demo", demoProvider)] "demo" demoProvider
    demoHeader demoMetadata [] rfl rfl rfl).2 "hello" rfl

/-- C5: a POST whose provider path segment is not a key of the registry is
answered with HTTPNotFound (status 404) whatever the header and body, with
neither header parsing nor provider processing performed. -/
theorem post_unknown_provider_not_found
    (providers : List (String × Provider)) (name : String) (request : SttRequest)
    (hlook : List.lookup name providers = none) :
    (SpeechToTextView.post providers name request).2 = ⟨.notFound, false, false⟩ ∧
    ((SpeechToTextView.post providers name request).2.result).statusOf = 404 := by
  have : (SpeechToTextView.post providers name request).2 = ⟨.notFound, false, false⟩ := by
    simp [SpeechToTextView.post, hlook]
  exact ⟨this, by rw [this]; rfl⟩

/-- C5 witness: an empty registry knows no provider named demo. -/
theorem post_unknown_provider_not_found_witness :
    (SpeechToTextView.post [] "demo" ⟨some demoHeader, [1, 2, 3]⟩).2 =
        ⟨.notFound, false, false⟩ ∧
    ((SpeechToTextView.post [] "demo" ⟨some demoHeader, [1, 2, 3]⟩).2.result).statusOf = 404 :=
  post_unknown_provider_not_found [] "demo" ⟨some demoHeader, [1, 2, 3]⟩ rfl

/-! ## Claims C6, C7, C10 -/

/-- C6: a GET addressed to a registered provider is answered with a JSON
object of exactly five entries, the provider's capability lists unmodified
from registration (the source keys the samplerates list as samplerate and
the bitrates list as bitrate). -/
theorem get_returns_capability_lists
    (providers : List (String × Provider)) (name : String) (p : Provider)
    (hlook : List.lookup name providers = some p) :
    (SpeechToTextView.get providers name).2 = json_message
      [("languages", .strs p.supported_languages),
       ("formats", .strs p.supported_formats),
       ("codecs", .strs p.supported_codecs),
       ("samplerate", .ints p.supported_samplerates),
       ("bitrate", .ints p.supported_bitrates)] := by
  simp [SpeechToTextView.get, hlook]

/-- C6 witness: the demo provider's declared lists come back verbatim. -/
theorem get_returns_capability_lists_witness :
    (SpeechToTextView.get [("demo", demoProvider)] "demo").2 = json_message
      [("languages", .strs ["de"]),
       ("formats", .strs ["wav"]),
       ("codecs", .strs ["pcm"]),
       ("samplerate", .ints [16000]),
       ("bitrate", .ints [16])] :=
  get_returns_capability_lists [("demo", demoProvider)] "demo" demoProvider rfl

/-- A provider that accepts an empty codec field, exhibiting that a segment
without a slash (empty extracted value) can pass validation. -/
def slashlessCodecProvider : Provider :=
  { supported_languages := ["de"], supported_formats := ["wav"], supported_codecs := [""],
    supported_bitrates := [16], supported_samplerates := [16000],
    process := fun _ _ => some "ok" }

/-- C7 counterexample: this header contains the segment codec=pcm, which is
not of the expected key=value/value shape (it carries no slash), yet the
handler neither fails nor withholds dispatch: the empty extracted codec
passes the capability check of slashlessCodecProvider, the provider is
invoked, and the response is 200 with body ok. -/
theorem post_unparseable_segment_counterexample :
    (pySplit ';' "lanugage=x/de;format=x/wav;codec=pcm;bitrate=x/16;samplerate=x/16000".data).contains
        "codec=pcm".data = true ∧
    "codec=pcm".data.contains '/' = false ∧
    (SpeechToTextView.post [("demo", slashlessCodecProvider)] "demo"
        ⟨some "lanugage=x/de;format=x/wav;codec=pcm;bitrate=x/16;samplerate=x/16000", []⟩).2 =
      ⟨.response 200 (some "ok"), true, true⟩ := by
  exact ⟨by decide, by decide, by rfl⟩

/-- C7 amended: a POST to a registered provider with the X-Speech-Content
header missing, or with a header on which metadata construction fails (the
argument keys are not exactly the five field names, or bitrate or
samplerate does not convert with int), ends in an unhandled exception
rather than a crafted error response and the provider is never invoked;
a segment merely lacking its slash-delimited part yields an empty field
value and is not by itself a failure. -/
theorem post_malformed_header_unhandled
    (providers : List (String × Provider)) (name : String) (p : Provider)
    (stream : List Nat)
    (hlook : List.lookup name providers = some p) :
    ((SpeechToTextView.post providers name ⟨none, stream⟩).2 =
        ⟨.unhandledError, true, false⟩) ∧
    (∀ hv, metadat_from_header hv = none →
      (SpeechToTextView.post providers name ⟨some hv, stream⟩).2 =
        ⟨.unhandledError, true, false⟩) := by
  constructor
  · simp [SpeechToTextView.post, hlook]
  · intro hv hparse
    simp [SpeechToTextView.post, hlook, hparse]

/-- C7 amended witness: with the demo registry, the request without the
header and the request with the empty header both end unhandled, without
dispatch. -/
theorem post_malformed_header_unhandled_witness :
    ((SpeechToTextView.post [("demo", emptyProvider)] "demo" ⟨none, []⟩).2 =
        ⟨.unhandledError, true, false⟩) ∧
    ((SpeechToTextView.post [("demo", emptyProvider)] "demo" ⟨some "", []⟩).2 =
        ⟨.unhandledError, true, false⟩) :=
  ⟨(post_malformed_header_unhandled [("demo", emptyProvider)] "demo" emptyProvider [] rfl).1,
   (post_malformed_header_unhandled [("demo", emptyProvider)] "demo" emptyProvider [] rfl).2
     "" rfl⟩

/-- C10: neither handler mutates the provider registry: for every request,
the providers mapping coming out of post and of get is the one passed in. -/
theorem handlers_preserve_providers
    (providers : List (String × Provider)) (name : String) (request : SttRequest) :
    (SpeechToTextView.post providers name request).1 = providers ∧
    (SpeechToTextView.get providers name).1 = providers := by
  constructor
  · unfold SpeechToTextView.post
    repeat' split
    all_goals rfl
  · unfold SpeechToTextView.get
    split <;> rfl

/-! ## Lovelace configuration schema (homeassistant/components/lovelace)

CONFIG_SCHEMA validates the value under the lovelace domain key: an optional
mode passed through vol.Lower and vol.In, an optional dashboards mapping
with slug-validated keys and YAML_DASHBOARD_SCHEMA-validated values, and an
optional resources list of RESOURCE_SCHEMA entries. Configuration values are
embedded as a JSON-like inductive; a voluptuous mapping schema rejects keys
it does not declare and treats undeclared markers as optional. -/

/-- A configuration value as voluptuous sees it. -/
inductive JVal where
  | s (v : String)
  | i (v : Int)
  | b (v : Bool)
  | null
  | arr (items : List JVal)
  | obj (fields : List (String × JVal))

/-- Key lookup in a mapping value (keys are unique in a parsed mapping, so
the first match is the entry). -/
def jget (fields : List (String × JVal)) (k : String) : Option JVal :=
  (fields.find? (fun p => p.1 == k)).map (fun p => p.2)

/-- A voluptuous Required key: the key must be present and its value must
pass the validator. -/
def optRequired (f : JVal → Bool) : Option JVal → Bool
  | some v => f v
  | none => false

/-- A voluptuous Optional key: an absent key passes, a present value must
pass the validator. -/
def optAllowed (f : JVal → Bool) : Option JVal → Bool
  | some v => f v
  | none => true

/-- A voluptuous literal schema: the value must be exactly that string. -/
def isLiteral (lit : String) : JVal → Bool
  | .s v => v == lit
  | _ => false

/-- vol.In over a list of strings: the value is one of them (a non-string
value equals none of them). -/
def inStrings (l : List String) : JVal → Bool
  | .s t => l.contains t
  | _ => false

/-- A voluptuous list schema: the value must be a list and every entry must
pass the validator. -/
def isArrAll (f : JVal → Bool) : JVal → Bool
  | .arr items => items.all f
  | _ => false

/-- Lowercasing of one ASCII letter, as Python str.lower does on the
characters at hand. -/
def charLower (c : Char) : Char :=
  if 'A' ≤ c ∧ c ≤ 'Z' then Char.ofNat (c.toNat + 32) else c

/-- Python str.lower on a string. -/
def pyLower (s : String) : String := String.mk (s.data.map charLower)

/-- vol.All(vol.Lower, vol.In([yaml, storage])): vol.Lower takes
str(value).lower(), and str of a non-string value never reads yaml or
storage, so the mode passes exactly when it is a string lowercasing to one
of the two. -/
def lovelaceModeOk : JVal → Bool
  | .s v => pyLower v == "yaml" || pyLower v == "storage"
  | _ => false

/-- A lowercase ASCII letter or digit, the characters slugification keeps. -/
def isSlugChar (c : Char) : Bool := ('a' ≤ c && c ≤ 'z') || ('0' ≤ c && c ≤ '9')

/-- True when no two hyphens stand next to each other. -/
def noDoubleDash : List Char → Bool
  | '-' :: '-' :: _ => false
  | _ :: rest => noDoubleDash rest
  | [] => true

/-- url_slug of the source accepts a value exactly when it equals its own
slugification. Modelled from the spec: slugify from homeassistant.util is
not under src/; per the spec's valid url slugs, a string is unchanged by
slugification exactly when it is nonempty, made of lowercase ASCII letters
and digits and single separating hyphens, with no leading or trailing
hyphen. -/
def url_slug (s : String) : Bool :=
  let cs := s.data
  !cs.isEmpty && cs.all (fun c => isSlugChar c || c == '-') &&
    cs.head? != some '-' && cs.getLast? != some '-' && noDoubleDash cs

/-- Modelled from the spec: cv.string from helpers/config_validation is not
under src/; per the spec's string-valued fields it accepts a string. -/
def cvString : JVal → Bool
  | .s _ => true
  | _ => false

/-- Modelled from the spec: cv.boolean is not under src/; the require_admin
flag is a boolean. -/
def cvBoolean : JVal → Bool
  | .b _ => true
  | _ => false

/-- Modelled from the spec: cv.icon is not under src/; the sidebar icon is
a string. -/
def cvIcon : JVal → Bool
  | .s _ => true
  | _ => false

/-- Modelled from the spec: sanitize_filename from homeassistant.util is not
under src/; per the spec the filename is a string configuration value, and
the sanitizer passes it through. -/
def sanitize_filename (v : JVal) : Bool := cvString v

/-- SIDEBAR_FIELDS: a mapping with required icon (cv.icon) and required
title (cv.string) and no other keys. -/
def sidebarOk : JVal → Bool
  | .obj fields =>
      fields.all (fun p => p.1 == "icon" || p.1 == "title") &&
      optRequired cvIcon (jget fields "icon") &&
      optRequired cvString (jget fields "title")
  | _ => false

/-- YAML_DASHBOARD_SCHEMA: the base create fields (optional require_admin
boolean, optional sidebar) plus required mode equal to the literal yaml and
required filename passing cv.string and sanitize_filename. -/
def yamlDashboardOk : JVal → Bool
  | .obj fields =>
      fields.all (fun p =>
        p.1 == "require_admin" || p.1 == "sidebar" || p.1 == "mode" || p.1 == "filename") &&
      optAllowed cvBoolean (jget fields "require_admin") &&
      optAllowed sidebarOk (jget fields "sidebar") &&
      optRequired (isLiteral "yaml") (jget fields "mode") &&
      optRequired (fun v => cvString v && sanitize_filename v) (jget fields "filename")
  | _ => false

/-- RESOURCE_TYPES of the source. -/
def resourceTypes : List String := ["js", "css", "module", "html"]

/-- RESOURCE_SCHEMA: a mapping whose keys are among type and url, the type
(when present) one of RESOURCE_TYPES, the url (when present) a cv.string;
both keys are unmarked in the source and voluptuous treats them as
optional. -/
def resourceOk : JVal → Bool
  | .obj fields =>
      fields.all (fun p => p.1 == "type" || p.1 == "url") &&
      optAllowed (inStrings resourceTypes) (jget fields "type") &&
      optAllowed cvString (jget fields "url")
  | _ => false

/-- Modelled from the spec: schema_with_slug_keys from
helpers/config_validation is not under src/; per the spec's slug-keyed
dashboards mapping, it requires a mapping whose every key passes the slug
validator (url_slug here) and whose every value passes the given dashboard
schema. -/
def dashboardsOk : JVal → Bool
  | .obj fields => fields.all (fun p => url_slug p.1 && yamlDashboardOk p.2)
  | _ => false

/-- CONFIG_SCHEMA's value under the lovelace domain key: a mapping with
keys among mode, dashboards and resources; mode, when present, passes
vol.Lower then vol.In (it defaults to storage when absent); dashboards,
when present, passes the slug-keyed dashboard schema; resources, when
present, is a list of RESOURCE_SCHEMA entries. -/
def lovelaceConfigAccepts : JVal → Bool
  | .obj fields =>
      fields.all (fun p => p.1 == "mode" || p.1 == "dashboards" || p.1 == "resources") &&
      optAllowed lovelaceModeOk (jget fields "mode") &&
      optAllowed dashboardsOk (jget fields "dashboards") &&
      optAllowed (isArrAll resourceOk) (jget fields "resources")
  | _ => false

/-- The acceptance condition exactly as claim C9 words it: the mode
(defaulting to storage) lowercases to yaml or storage, the optional
dashboards mapping is keyed by valid url slugs, and every entry of the
optional resource list has a type among js, css, module, html and a string
url. -/
def claimedLovelaceAccepts : JVal → Bool
  | .obj fields =>
      optAllowed lovelaceModeOk (jget fields "mode") &&
      optAllowed (fun w =>
        match w with
        | .obj dfields => dfields.all (fun p => url_slug p.1)
        | _ => false) (jget fields "dashboards") &&
      optAllowed (isArrAll (fun it =>
        match it with
        | .obj rf =>
            optRequired (inStrings resourceTypes) (jget rf "type") &&
            optRequired cvString (jget rf "url")
        | _ => false)) (jget fields "resources")
  | _ => false

/-! ## Claim C9: the schema acceptance condition in spec words -/

/-- A sidebar record in spec words: a mapping with exactly the keys icon
and title, the icon an icon string, the title a string. -/
def SidebarSpec (v : JVal) : Prop :=
  ∃ fields, v = .obj fields ∧
    (∀ p ∈ fields, p.1 = "icon" ∨ p.1 = "title") ∧
    (∃ w, jget fields "icon" = some w ∧ cvIcon w = true) ∧
    (∃ w, jget fields "title" = some w ∧ cvString w = true)

/-- A YAML dashboard record in spec words: keys among require_admin,
sidebar, mode and filename; require_admin, when present, a boolean;
sidebar, when present, a sidebar record; mode present and equal to the
string yaml; filename present, a string accepted by the sanitizer. -/
def YamlDashboardSpec (v : JVal) : Prop :=
  ∃ fields, v = .obj fields ∧
    (∀ p ∈ fields, p.1 = "require_admin" ∨ p.1 = "sidebar" ∨ p.1 = "mode" ∨ p.1 = "filename") ∧
    (∀ w, jget fields "require_admin" = some w → cvBoolean w = true) ∧
    (∀ w, jget fields "sidebar" = some w → SidebarSpec w) ∧
    (jget fields "mode" = some (.s "yaml")) ∧
    (∃ w, jget fields "filename" = some w ∧ cvString w = true ∧ sanitize_filename w = true)

/-- A resource entry in spec words: a mapping with keys among type and url;
the type, when present, one of js, css, module, html; the url, when
present, a string. -/
def ResourceSpec (v : JVal) : Prop :=
  ∃ fields, v = .obj fields ∧
    (∀ p ∈ fields, p.1 = "type" ∨ p.1 = "url") ∧
    (∀ w, jget fields "type" = some w → ∃ t, w = .s t ∧ t ∈ resourceTypes) ∧
    (∀ w, jget fields "url" = some w → cvString w = true)

/-- The whole acceptance condition in spec words: a mapping with keys among
mode, dashboards and resources; the mode, when present, a string whose
lowercasing is yaml or storage (absent mode defaults to storage); the
dashboards, when present, a mapping keyed by valid url slugs whose values
are YAML dashboard records; the resources, when present, a list of
resource entries. -/
def LovelaceConfigSpec (v : JVal) : Prop :=
  ∃ fields, v = .obj fields ∧
    (∀ p ∈ fields, p.1 = "mode" ∨ p.1 = "dashboards" ∨ p.1 = "resources") ∧
    (∀ w, jget fields "mode" = some w →
      ∃ s, w = .s s ∧ (pyLower s = "yaml" ∨ pyLower s = "storage")) ∧
    (∀ w, jget fields "dashboards" = some w →
      ∃ dfields, w = .obj dfields ∧ ∀ p ∈ dfields, url_slug p.1 = true ∧ YamlDashboardSpec p.2) ∧
    (∀ w, jget fields "resources" = some w → ∃ items, w = .arr items ∧ ∀ it ∈ items, ResourceSpec it)

/-! Bridge lemmas between the executable validators and the spec-worded
conditions. -/

theorem optRequired_eq_true_iff (f : JVal → Bool) (o : Option JVal) :
    optRequired f o = true ↔ ∃ w, o = some w ∧ f w = true := by
  cases o <;> simp [optRequired]

theorem optAllowed_eq_true_iff (f : JVal → Bool) (o : Option JVal) :
    optAllowed f o = true ↔ ∀ w, o = some w → f w = true := by
  cases o <;> simp [optAllowed]

theorem isLiteral_eq_true_iff (lit : String) (v : JVal) :
    isLiteral lit v = true ↔ v = .s lit := by
  cases v <;> simp [isLiteral]

theorem inStrings_eq_true_iff (l : List String) (v : JVal) :
    inStrings l v = true ↔ ∃ t, v = .s t ∧ t ∈ l := by
  cases v <;> simp [inStrings, List.contains]

theorem lovelaceModeOk_eq_true_iff (v : JVal) :
    lovelaceModeOk v = true ↔ ∃ s, v = .s s ∧ (pyLower s = "yaml" ∨ pyLower s = "storage") := by
  cases v <;> simp [lovelaceModeOk]

theorem sidebarOk_eq_true_iff (v : JVal) : sidebarOk v = true ↔ SidebarSpec v := by
  cases v <;>
    simp [sidebarOk, SidebarSpec, optRequired_eq_true_iff, List.all_eq_true, and_assoc]

theorem yamlDashboardOk_eq_true_iff (v : JVal) :
    yamlDashboardOk v = true ↔ YamlDashboardSpec v := by
  cases v <;>
    simp [yamlDashboardOk, YamlDashboardSpec, optRequired_eq_true_iff,
      optAllowed_eq_true_iff, isLiteral_eq_true_iff, sidebarOk_eq_true_iff,
      List.all_eq_true, and_assoc, or_assoc]

theorem resourceOk_eq_true_iff (v : JVal) : resourceOk v = true ↔ ResourceSpec v := by
  cases v <;>
    simp [resourceOk, ResourceSpec, optRequired_eq_true_iff, optAllowed_eq_true_iff,
      inStrings_eq_true_iff, List.all_eq_true, and_assoc]

theorem dashboardsOk_eq_true_iff (v : JVal) :
    dashboardsOk v = true ↔
      ∃ dfields, v = .obj dfields ∧
        ∀ p ∈ dfields, url_slug p.1 = true ∧ YamlDashboardSpec p.2 := by
  cases v <;>
    simp [dashboardsOk, yamlDashboardOk_eq_true_iff, List.all_eq_true]

theorem isArrAll_resource_eq_true_iff (v : JVal) :
    isArrAll resourceOk v = true ↔
      ∃ items, v = .arr items ∧ ∀ it ∈ items, ResourceSpec it := by
  cases v <;> simp [isArrAll, resourceOk_eq_true_iff, List.all_eq_true]

/-- C9 counterexample: the config whose dashboards map the valid url slug a
to the empty mapping satisfies every condition the claim lists (default
mode, slug key, no resources), yet CONFIG_SCHEMA rejects it: the schema
also validates each dashboards value against YAML_DASHBOARD_SCHEMA, which
requires mode yaml and a filename. -/
theorem lovelace_schema_claim_counterexample :
    claimedLovelaceAccepts (.obj [("dashboards", .obj [("a", .obj [])])]) = true ∧
    lovelaceConfigAccepts (.obj [("dashboards", .obj [("a", .obj [])])]) = false := by
  exact ⟨rfl, rfl⟩

/-- C9 amended: CONFIG_SCHEMA accepts a lovelace config exactly when it is
a mapping with keys among mode, dashboards and resources, whose mode (when
present; storage when absent) is a string lowercasing to yaml or storage,
whose dashboards (when present) is a mapping keyed by valid url slugs with
every value a YAML dashboard record (mode equal to yaml, a string filename,
optional boolean require_admin, optional sidebar with icon and title), and
whose resources (when present) is a list of mappings with keys among type
and url, the type (when present) one of js, css, module, html, the url
(when present) a string. -/
theorem lovelace_config_accepts_iff_spec (v : JVal) :
    lovelaceConfigAccepts v = true ↔ LovelaceConfigSpec v := by
  cases v <;>
    simp [lovelaceConfigAccepts, LovelaceConfigSpec, optAllowed_eq_true_iff,
      lovelaceModeOk_eq_true_iff, dashboardsOk_eq_true_iff, isArrAll_resource_eq_true_iff,
      List.all_eq_true, and_assoc, or_assoc]

/-! ## Lovelace dashboard and panel registration (async_setup) -/

/-- The fields of a YAML dashboard config that panel registration reads:
require_admin and the optional sidebar (title, icon). -/
structure DashConf where
  require_admin : Bool
  sidebar : Option (String × String)
deriving DecidableEq, Repr

/-- A storage dashboard item: its url_path plus the fields panel
registration reads. -/
structure StorageItem where
  url_path : String
  require_admin : Bool
  sidebar : Option (String × String)
deriving DecidableEq, Repr

/-- A value of the dashboards mapping in hass.data: a LovelaceYAML config
(constructed from the url path and the dashboard conf) or a LovelaceStorage
config (constructed from the storage item). -/
inductive DashEntry where
  | yamlDash (urlPath : Option String) (conf : DashConf)
  | storageDash (item : StorageItem)
deriving DecidableEq, Repr

/-- A frontend panel as registration stores it. -/
structure Panel where
  urlPath : String
  mode : String
  require_admin : Bool
  sidebar : Option (String × String)
deriving DecidableEq, Repr

/-- The state async_setup manipulates: the frontend panel registry, the
dashboards mapping of hass.data (keyed by optional url path, None for the
default), and the log of warnings. -/
structure LovelaceState where
  panels : List Panel
  dashboards : List (Option String × DashEntry)
  warnings : List String
deriving DecidableEq, Repr

/-- Modelled from the spec: frontend.async_register_built_in_panel is not
under src/; per the spec's registration-conflict sentence, registering a
panel whose frontend url path is already taken raises ValueError (none)
unless it is an update; otherwise the panel is stored, replacing the old
one on update. -/
def async_register_built_in_panel (panels : List Panel) (pan : Panel) (update : Bool) :
    Option (List Panel) :=
  if panels.any (fun q => q.urlPath == pan.urlPath) then
    if update then some (panels.map (fun q => if q.urlPath == pan.urlPath then pan else q))
    else none
  else some (panels ++ [pan])

/-- _register_panel of the source: build the panel from the url path, the
mode and the config's require_admin and optional sidebar, and hand it to
the frontend registration. -/
def _register_panel (panels : List Panel) (url_path : String) (mode : String)
    (require_admin : Bool) (sidebar : Option (String × String)) (update : Bool) :
    Option (List Panel) :=
  async_register_built_in_panel panels ⟨url_path, mode, require_admin, sidebar⟩ update

/-- Python dict assignment on the dashboards mapping: overwrite in place or
append. -/
def odinsert (k : Option String) (v : DashEntry) :
    List (Option String × DashEntry) → List (Option String × DashEntry)
  | [] => [(k, v)]
  | (k0, v0) :: rest => if k0 == k then (k, v) :: rest else (k0, v0) :: odinsert k v rest

/-- One iteration of the YAML dashboards loop of async_setup: store the
LovelaceYAML config under its url path (a plain dict assignment), then
register the panel with update false; a ValueError from a duplicate url
path is caught, logged as a warning, and the loop moves on. -/
def processYamlDashboard (st : LovelaceState) (entry : String × DashConf) : LovelaceState :=
  let st1 := { st with
    dashboards := odinsert (some entry.1) (.yamlDash (some entry.1) entry.2) st.dashboards }
  match _register_panel st1.panels entry.1 "yaml" entry.2.require_admin entry.2.sidebar false with
  | some ps => { st1 with panels := ps }
  | none => { st1 with warnings :=
      st1.warnings ++ ["Panel url path " ++ entry.1 ++ " is not unique"] }

/-- The YAML dashboards loop of async_setup over the configured entries. -/
def processYamlDashboards (st : LovelaceState) (entries : List (String × DashConf)) :
    LovelaceState :=
  entries.foldl processYamlDashboard st

/-- The change kinds the dashboards collection reports. -/
inductive ChangeType where
  | added
  | updated
  | removed
deriving DecidableEq, Repr

/-- storage_dashboard_changed of the source: on removal, drop the panel and
the dashboards entry; on addition, refuse with a warning when the url path
already has a dashboards entry, otherwise store the LovelaceStorage config
and register the panel (update false), logging a warning when registration
raises; on update, re-register with update true. -/
def storage_dashboard_changed (st : LovelaceState) (change : ChangeType)
    (item : StorageItem) : LovelaceState :=
  match change with
  | .removed =>
      { st with panels := st.panels.filter (fun q => q.urlPath != item.url_path),
                dashboards := st.dashboards.filter (fun e => e.1 != some item.url_path) }
  | .added =>
      if (List.lookup (some item.url_path) st.dashboards).isSome then
        { st with warnings := st.warnings ++
            ["Cannot register panel at " ++ item.url_path ++ ", it is already defined"] }
      else
        let st1 := { st with
          dashboards := odinsert (some item.url_path) (.storageDash item) st.dashboards }
        match _register_panel st1.panels item.url_path "storage" item.require_admin
            item.sidebar false with
        | some ps => { st1 with panels := ps }
        | none => { st1 with warnings := st1.warnings ++
            ["Failed to create panel " ++ item.url_path ++ " from storage"] }
  | .updated =>
      match _register_panel st.panels item.url_path "storage" item.require_admin
          item.sidebar true with
      | some ps => { st with panels := ps }
      | none => { st with warnings := st.warnings ++
          ["Failed to update panel " ++ item.url_path ++ " from storage"] }

/-- C8: a registration whose url path is already registered logs a warning,
is skipped leaving the existing registration unchanged, and processing
continues. For a storage addition whose url path already has a dashboards
entry: dashboards and panels unchanged, one warning appended, and the
handler returns (later changes keep being processed on the resulting
state). For a YAML dashboard whose url path is already a registered panel:
the panel registry is unchanged, one warning appended, and the loop
continues over the remaining dashboards from the resulting state. -/
theorem duplicate_url_registration_skipped_and_continues
    (st : LovelaceState) (item : StorageItem)
    (hs : (List.lookup (some item.url_path) st.dashboards).isSome = true)
    (url_path : String) (conf : DashConf) (rest : List (String × DashConf))
    (hp : st.panels.any (fun q => q.urlPath == url_path) = true) :
    (storage_dashboard_changed st .added item).dashboards = st.dashboards ∧
    (storage_dashboard_changed st .added item).panels = st.panels ∧
    (storage_dashboard_changed st .added item).warnings = st.warnings ++
      ["Cannot register panel at " ++ item.url_path ++ ", it is already defined"] ∧
    (processYamlDashboard st (url_path, conf)).panels = st.panels ∧
    (processYamlDashboard st (url_path, conf)).warnings = st.warnings ++
      ["Panel url path " ++ url_path ++ " is not unique"] ∧
    processYamlDashboards st ((url_path, conf) :: rest) =
      processYamlDashboards (processYamlDashboard st (url_path, conf)) rest := by
  refine ⟨?_, ?_, ?_, ?_, ?_, rfl⟩ <;>
    simp [storage_dashboard_changed, processYamlDashboard, _register_panel,
      async_register_built_in_panel, hs, hp]

/-- C8 witness: with the panel a registered and a dashboards entry at a,
both the storage addition of a and the YAML dashboard a are skipped with a
warning, and processing continues. -/
theorem duplicate_url_registration_skipped_and_continues_witness :
    (storage_dashboard_changed
        ⟨[⟨"a", "yaml", false, none⟩], [(some "a", .yamlDash (some "a") ⟨false, none⟩)], []⟩
        .added ⟨"a", false, none⟩).dashboards =
      [(some "a", .yamlDash (some "a") ⟨false, none⟩)] ∧
    (storage_dashboard_changed
        ⟨[⟨"a", "yaml", false, none⟩], [(some "a", .yamlDash (some "a") ⟨false, none⟩)], []⟩
        .added ⟨"a", false, none⟩).panels = [⟨"a", "yaml", false, none⟩] ∧
    (storage_dashboard_changed
        ⟨[⟨"a", "yaml", false, none⟩], [(some "a", .yamlDash (some "a") ⟨false, none⟩)], []⟩
        .added ⟨"a", false, none⟩).warnings =
      [] ++ ["Cannot register panel at " ++ "a" ++ ", it is already defined"] ∧
    (processYamlDashboard
        ⟨[⟨"a", "yaml", false, none⟩], [(some "a", .yamlDash (some "a") ⟨false, none⟩)], []⟩
        ("a", ⟨false, none⟩)).panels = [⟨"a", "yaml", false, none⟩] ∧
    (processYamlDashboard
        ⟨[⟨"a", "yaml", false, none⟩], [(some "a", .yamlDash (some "a") ⟨false, none⟩)], []⟩
        ("a", ⟨false, none⟩)).warnings =
      [] ++ ["Panel url path " ++ "a" ++ " is not unique"] ∧
    processYamlDashboards
        ⟨[⟨"a", "yaml", false, none⟩], [(some "a", .yamlDash (some "a") ⟨false, none⟩)], []⟩
        (("a", ⟨false, none⟩) :: []) =
      processYamlDashboards
        (processYamlDashboard
          ⟨[⟨"a", "yaml", false, none⟩], [(some "a", .yamlDash (some "a") ⟨false, none⟩)], []⟩
          ("a", ⟨false, none⟩)) [] :=
  duplicate_url_registration_skipped_and_continues
    ⟨[⟨"a", "yaml", false, none⟩], [(some "a", .yamlDash (some "a") ⟨false, none⟩)], []⟩
    ⟨"a", false, none⟩ rfl "a" ⟨false, none⟩ [] rfl
